import Mathlib

/-!
Verification development for the Taiwan weather dashboard
(src/weather_dashboard.py).

The file shallowly embeds the forecast ingestion and normalization
pipeline: the raw CWA (F-C0032-001) document shape, the normalizer
`parse_cwa_data`, the selector expressions built on the resulting
DataFrame (`cities`, the per-city filter-and-sort, and the
`city_df.iloc[0]` current-record selection), and the cached fetcher
`fetch_cwa_weather` (whose `st.cache_data(ttl=900)` wrapper is a library;
its cache semantics are modelled from the spec).

Python exceptions are embedded as `Except` errors; `pandas` NaN cells
(`pd.to_numeric(..., errors="coerce")`) are embedded as `Option Rat`
with `none` for NaN.
-/

/-- One entry of an element's `time` array in the upstream JSON:
`{"startTime": ..., "endTime": ..., "parameter": {"parameterName": ...}}`. -/
structure RawTimeEntry where
  startTime : String
  endTime : String
  parameterName : String
deriving DecidableEq

/-- One entry of a location's `weatherElement` array:
`{"elementName": ..., "time": [...]}`. -/
structure RawElement where
  elementName : String
  time : List RawTimeEntry
deriving DecidableEq

/-- One entry of `records.location`:
`{"locationName": ..., "weatherElement": [...]}`. -/
structure RawLocation where
  locationName : String
  weatherElement : List RawElement
deriving DecidableEq

/-- The raw forecast document, already projected to
`data["records"]["location"]` (the only part `parse_cwa_data` reads). -/
structure RawDoc where
  location : List RawLocation
deriving DecidableEq

/-- Python exceptions that can escape `parse_cwa_data`'s row-building
loop: `KeyError` from a missing dict key, `IndexError` from indexing a
list past its end. -/
inductive ParseError where
  | keyError (key : String)
  | indexError (key : String) (idx : Nat)
deriving DecidableEq

/-- The dict comprehension
`elements = {e["elementName"]: e["time"] for e in loc["weatherElement"]}`:
a lookup in which, as in a Python dict, a later duplicate `elementName`
overwrites an earlier one. -/
def elementsOf (wes : List RawElement) (name : String) : Option (List RawTimeEntry) :=
  ((wes.filter (fun e => e.elementName == name)).getLast?).map (fun e => e.time)

/-- The subscript chain `elements[name][i]`: `KeyError` when `name` is
not a key of the dict, `IndexError` when `i` is past the series end. -/
def getParam (loc : RawLocation) (name : String) (i : Nat) : Except ParseError RawTimeEntry :=
  match elementsOf loc.weatherElement name with
  | none => Except.error (ParseError.keyError name)
  | some ts =>
    match ts[i]? with
    | none => Except.error (ParseError.indexError name i)
    | some t => Except.ok t

/-- One row dict as built at lines 62-70 of the source, before any
numeric coercion: every cell is still the raw string. -/
structure RawRow where
  city : String
  startTime : String
  endTime : String
  weather : String
  pop : String
  minT : String
  maxT : String
deriving DecidableEq

/-- The keys of the row dict literal built inside the loop of
`parse_cwa_data` (lines 62-70); these are exactly the columns of the
resulting DataFrame, and the later `pd.to_numeric` assignments replace
the `pop`/`minT`/`maxT` columns without adding any column. -/
def rowKeys : List String :=
  ["city", "startTime", "endTime", "weather", "pop", "minT", "maxT"]

/-- The body of the `for i in range(len(elements["Wx"]))` loop: the row
dict literal, whose values are evaluated left to right (`Wx[i]` three
times, then `PoP[i]`, `MinT[i]`, `MaxT[i]`), each able to raise. -/
def buildRow (loc : RawLocation) (i : Nat) : Except ParseError RawRow := do
  let wx ← getParam loc "Wx" i
  let pop ← getParam loc "PoP" i
  let minT ← getParam loc "MinT" i
  let maxT ← getParam loc "MaxT" i
  Except.ok
    { city := loc.locationName
      startTime := wx.startTime
      endTime := wx.endTime
      weather := wx.parameterName
      pop := pop.parameterName
      minT := minT.parameterName
      maxT := maxT.parameterName }

/-- One location's contribution to `rows`: `elements["Wx"]` is looked up
first (raising `KeyError` if absent, even when its series is empty), then
the loop runs `i` over `range(len(elements["Wx"]))`, appending one row
per index and propagating the first exception. -/
def parseLocation (loc : RawLocation) : Except ParseError (List RawRow) :=
  match elementsOf loc.weatherElement "Wx" with
  | none => Except.error (ParseError.keyError "Wx")
  | some wx => (List.range wx.length).mapM (buildRow loc)

/-- Lines 51-73 of `parse_cwa_data`: iterate the locations in document
order, appending each location's rows; any exception aborts the whole
call. -/
def buildRawRows (doc : RawDoc) : Except ParseError (List RawRow) := do
  let blocks ← doc.location.mapM parseLocation
  Except.ok blocks.flatten

/-- Model of `pd.to_numeric(s, errors="coerce")` on one cell, restricted
to plain decimal numerals (optional sign, digits, optional fractional
digits): a string of any other shape coerces to NaN, embedded as `none`. -/
def parseNatDigits (cs : List Char) : Option Nat :=
  cs.foldl
    (fun acc c =>
      match acc with
      | none => none
      | some n => if c.isDigit then some (n * 10 + (c.toNat - 48)) else none)
    (if cs.isEmpty then none else some 0)

/-- Numeric coercion of one string cell; see `parseNatDigits`. -/
def toNumeric (s : String) : Option Rat :=
  let signAndBody : Rat × List Char :=
    match s.data with
    | '-' :: r => (-1, r)
    | '+' :: r => (1, r)
    | r => (1, r)
  let sign := signAndBody.1
  let body := signAndBody.2
  let intPart := body.takeWhile (fun c => c != '.')
  match body.dropWhile (fun c => c != '.') with
  | [] => (parseNatDigits intPart).map (fun n => sign * (n : Rat))
  | _ :: frac =>
    match parseNatDigits intPart, parseNatDigits frac with
    | some n, some f => some (sign * ((n : Rat) + (f : Rat) / ((10 : Rat) ^ frac.length)))
    | _, _ => none

/-- A row of the DataFrame returned by `parse_cwa_data`, after the
`pd.to_numeric(..., errors="coerce")` assignments: `pop`, `minT`, `maxT`
are numeric with NaN embedded as `none`. -/
structure ForecastRow where
  city : String
  startTime : String
  endTime : String
  weather : String
  pop : Option Rat
  minT : Option Rat
  maxT : Option Rat
deriving DecidableEq

/-- The three column assignments at lines 76-78, applied to one row. -/
def coerceRow (r : RawRow) : ForecastRow :=
  { city := r.city
    startTime := r.startTime
    endTime := r.endTime
    weather := r.weather
    pop := toNumeric r.pop
    minT := toNumeric r.minT
    maxT := toNumeric r.maxT }

/-- The whole of `parse_cwa_data`: build the raw rows, then coerce the
three numeric columns. `pd.DataFrame(rows)` derives its columns from
the row dicts, so on zero rows the frame has no columns at all and the
first coercion `df["pop"] = pd.to_numeric(df["pop"], ...)` at line 76
raises `KeyError('pop')`; with at least one row all three coercions are
total (`errors="coerce"`). -/
def parse_cwa_data (doc : RawDoc) : Except ParseError (List ForecastRow) := do
  let rows ← buildRawRows doc
  match rows with
  | [] => Except.error (ParseError.keyError "pop")
  | _ :: _ => Except.ok (rows.map coerceRow)

/-!
Selector: the expressions at lines 105, 110 and 144 of the source.
-/

/-- Lexicographic code-point comparison of character lists: the order
Python applies when comparing the strings of the `startTime` column and
when `sorted` orders city names. -/
def lexLeB : List Char → List Char → Bool
  | [], _ => true
  | _ :: _, [] => false
  | a :: as, b :: bs =>
    if a.toNat < b.toNat then true
    else if b.toNat < a.toNat then false
    else lexLeB as bs

/-- Python's `<=` on strings: lexicographic by code point. -/
def strLe (a b : String) : Prop := lexLeB a.data b.data = true

instance (a b : String) : Decidable (strLe a b) :=
  inferInstanceAs (Decidable (_ = true))

theorem lexLeB_refl : ∀ as, lexLeB as as = true := by
  intro as
  induction as with
  | nil => rfl
  | cons a as ih => simp [lexLeB, ih]

theorem lexLeB_total : ∀ as bs, lexLeB as bs = true ∨ lexLeB bs as = true := by
  intro as
  induction as with
  | nil => intro bs; left; rfl
  | cons a as ih =>
    intro bs
    cases bs with
    | nil => right; rfl
    | cons b bs =>
      rcases Nat.lt_trichotomy a.toNat b.toNat with h | h | h
      · left; simp [lexLeB, h]
      · rcases ih bs with h2 | h2
        · left; simp [lexLeB, h, h2]
        · right; simp [lexLeB, h, h2]
      · right; simp [lexLeB, h]

theorem lexLeB_trans :
    ∀ as bs cs, lexLeB as bs = true → lexLeB bs cs = true → lexLeB as cs = true := by
  intro as
  induction as with
  | nil => intro bs cs _ _; rfl
  | cons a as ih =>
    intro bs cs h1 h2
    cases bs with
    | nil => simp [lexLeB] at h1
    | cons b bs =>
      cases cs with
      | nil => simp [lexLeB] at h2
      | cons c cs =>
        rcases Nat.lt_trichotomy a.toNat b.toNat with hab | hab | hab
        · rcases Nat.lt_trichotomy b.toNat c.toNat with hbc | hbc | hbc
          · simp [lexLeB, Nat.lt_trans hab hbc]
          · simp [lexLeB, hbc ▸ hab]
          · simp [lexLeB, Nat.lt_asymm hbc, hbc] at h2
        · rcases Nat.lt_trichotomy b.toNat c.toNat with hbc | hbc | hbc
          · simp [lexLeB, hab ▸ hbc]
          · simp only [lexLeB, hab, hbc] at h1 h2 ⊢
            simp only [Nat.lt_irrefl, if_false] at h1 h2 ⊢
            exact ih bs cs h1 h2
          · simp [lexLeB, Nat.lt_asymm hbc, hbc] at h2
        · simp [lexLeB, Nat.lt_asymm hab, hab] at h1

theorem strLe_refl (a : String) : strLe a a := lexLeB_refl a.data

instance : IsTotal String strLe := ⟨fun a b => lexLeB_total a.data b.data⟩

instance : IsTrans String strLe := ⟨fun a b c => lexLeB_trans a.data b.data c.data⟩

/-- Comparison used by `sort_values("startTime")`: the `startTime`
column holds strings, compared lexicographically by code point. The
sort itself is embedded as insertion sort; pandas' default
`kind="quicksort"` realizes the same sorted-by-key contract but leaves
the relative order of equal keys unspecified, so only
order-of-keys/membership consequences are proved from this embedding,
never tie-order ones. -/
def startTimeLe (a b : ForecastRow) : Prop := strLe a.startTime b.startTime

instance : DecidableRel startTimeLe := fun a b =>
  inferInstanceAs (Decidable (strLe a.startTime b.startTime))

instance : IsTotal ForecastRow startTimeLe :=
  ⟨fun a b => lexLeB_total a.startTime.data b.startTime.data⟩

instance : IsTrans ForecastRow startTimeLe :=
  ⟨fun a b c => lexLeB_trans a.startTime.data b.startTime.data c.startTime.data⟩

/-- Line 110: `df[df["city"] == sel_city].sort_values("startTime")`. -/
def for_region (rows : List ForecastRow) (city : String) : List ForecastRow :=
  List.insertionSort startTimeLe (rows.filter (fun r => r.city == city))

/-- First-occurrence deduplication, as `pandas.Series.unique` performs
(it returns the distinct values in order of first appearance). -/
def uniqueFirstAux : List String → List String → List String
  | [], _ => []
  | x :: xs, seen =>
    if x ∈ seen then uniqueFirstAux xs seen else x :: uniqueFirstAux xs (x :: seen)

/-- See `uniqueFirstAux`. -/
def uniqueFirst (l : List String) : List String := uniqueFirstAux l []

/-- Line 105: `cities = sorted(df["city"].unique().tolist())`; Python's
`sorted` orders strings lexicographically by code point. -/
def cities (rows : List ForecastRow) : List String :=
  List.insertionSort strLe (uniqueFirst (rows.map (fun r => r.city)))

/-- Failure mode of the current-record selection. `indexError` is the
`IndexError` that pandas raises for `city_df.iloc[0]` on an empty frame;
`emptyResultError` is the explicit error the spec asks for instead and
exists only as the spec-side comparison point. -/
inductive SelectError where
  | indexError
  | emptyResultError
deriving DecidableEq

/-- Line 144: `sample = city_df.iloc[0]` — the first row of the
filtered-and-sorted frame, an uncaught `IndexError` when it is empty. -/
def currentRecord (rows : List ForecastRow) : Except SelectError ForecastRow :=
  match rows with
  | [] => Except.error SelectError.indexError
  | r :: _ => Except.ok r

/-- Modelled from the spec: `current(records_for_region)` "fails with
`EmptyResultError` if the sequence is empty" — the hardened selector the
spec prescribes, absent from the source. -/
def currentSpec (rows : List ForecastRow) : Except SelectError ForecastRow :=
  match rows with
  | [] => Except.error SelectError.emptyResultError
  | r :: _ => Except.ok r

/-- Modelled from the spec: the `approx_temp` derived field,
"(min_temp + max_temp) / 2 when both present, else empty". The source
computes and stores no such field; this definition exists only to be
compared against the source's records. -/
def approxTempSpec (minT maxT : Option Rat) : Option Rat :=
  match minT, maxT with
  | some a, some b => some ((a + b) / 2)
  | _, _ => none

/-!
Fetcher: `fetch_cwa_weather` (lines 37-45). The body issues one GET with
a timeout, calls `raise_for_status()` (which raises for any status in
400..599) and parses the body as JSON. The `st.cache_data(ttl=900)`
wrapper is a library; its cache semantics are modelled from the spec: a
cache entry younger than the TTL is returned without a network call, a
successful fetch stores the document with its timestamp, and a failed
fetch propagates the exception and leaves the cache unchanged.
-/

/-- Outcome of one attempted network request. `response status body`
carries the HTTP status and the parsed JSON body (`none` when the body
is not parseable as JSON). -/
inductive NetOutcome where
  | timeout
  | response (status : Nat) (body : Option RawDoc)
deriving DecidableEq

/-- The exception escaping the fetch body, carrying its cause:
`requests` timeout, `HTTPError` from `raise_for_status()` with the
offending status, or a JSON decode failure. -/
inductive FetchError where
  | timeoutErr
  | httpErr (status : Nat)
  | jsonDecodeErr
deriving DecidableEq

/-- The body of `fetch_cwa_weather` run against one network outcome:
`requests.get(..., timeout=10)`, then `r.raise_for_status()` (raising
for statuses 400..599), then `r.json()`. -/
def fetchOnce (o : NetOutcome) : Except FetchError RawDoc :=
  match o with
  | NetOutcome.timeout => Except.error FetchError.timeoutErr
  | NetOutcome.response status body =>
    if 400 ≤ status ∧ status < 600 then Except.error (FetchError.httpErr status)
    else
      match body with
      | none => Except.error FetchError.jsonDecodeErr
      | some d => Except.ok d

/-- The process-wide fetch state: the cache slot (document and fetch
timestamp) and how many network requests have been issued so far (the
latter is instrumentation for counting network calls, not program
state). -/
structure FetchState where
  cache : Option (RawDoc × Nat)
  calls : Nat
deriving DecidableEq

/-- The TTL the source configures: `st.cache_data(ttl=900)`. -/
def cacheTtl : Nat := 900

/-- A cache miss: issue the next network request from the oracle `net`;
on success store the document with the current timestamp, on failure
propagate the error and leave the cache slot unchanged. -/
def fetchMiss (now : Nat) (net : Nat → NetOutcome) (s : FetchState) :
    Except FetchError RawDoc × FetchState :=
  match fetchOnce (net s.calls) with
  | Except.ok d => (Except.ok d, { cache := some (d, now), calls := s.calls + 1 })
  | Except.error e => (Except.error e, { cache := s.cache, calls := s.calls + 1 })

/-- Modelled from the spec: `fetch_cwa_weather` under its
`st.cache_data(ttl=...)` wrapper. A cache entry is valid while
`now - fetch_timestamp ≤ ttl` (the spec invalidates it "once
`now - fetch_timestamp > ttl`"); a valid entry is returned without
consulting the network oracle. -/
def fetch_cwa_weather (ttl now : Nat) (net : Nat → NetOutcome) (s : FetchState) :
    Except FetchError RawDoc × FetchState :=
  match s.cache with
  | some entry =>
    if now - entry.2 ≤ ttl then (Except.ok entry.1, s) else fetchMiss now net s
  | none => fetchMiss now net s

/-!
General facts about `Except` and `List.mapM`, the embedding of
exception-propagating loops.
-/

instance {E A : Type} [DecidableEq E] [DecidableEq A] : DecidableEq (Except E A) := fun x y =>
  match x, y with
  | Except.ok a, Except.ok b => decidable_of_iff (a = b) (by simp)
  | Except.ok _, Except.error _ => isFalse (fun hc => Except.noConfusion hc)
  | Except.error _, Except.ok _ => isFalse (fun hc => Except.noConfusion hc)
  | Except.error e, Except.error f => decidable_of_iff (e = f) (by simp)

theorem exceptBind_ok {E A B : Type} (a : A) (f : A → Except E B) :
    (Except.ok a >>= f) = f a := rfl

theorem exceptBind_error {E A B : Type} (e : E) (f : A → Except E B) :
    ((Except.error e : Except E A) >>= f) = Except.error e := rfl

theorem mapM_ok_forall {E A B : Type} (f : A → Except E B) :
    ∀ (xs : List A) (ys : List B), xs.mapM f = Except.ok ys →
      ∀ x ∈ xs, ∃ y, f x = Except.ok y := by
  intro xs
  induction xs with
  | nil => intro ys _ x hx; exact absurd hx (List.not_mem_nil x)
  | cons a as ih =>
    intro ys h x hx
    rw [List.mapM_cons] at h
    cases hfa : f a with
    | error e => rw [hfa, exceptBind_error] at h; exact Except.noConfusion h
    | ok y =>
      rw [hfa, exceptBind_ok] at h
      cases hmas : as.mapM f with
      | error e => rw [hmas, exceptBind_error] at h; exact Except.noConfusion h
      | ok ys2 =>
        rcases List.mem_cons.mp hx with rfl | hx2
        · exact ⟨y, hfa⟩
        · exact ih ys2 hmas x hx2

theorem mapM_eq_ok_map {E A B : Type} (f : A → Except E B) (g : A → B) :
    ∀ xs : List A, (∀ x ∈ xs, f x = Except.ok (g x)) →
      xs.mapM f = Except.ok (xs.map g) := by
  intro xs
  induction xs with
  | nil => intro _; rfl
  | cons a as ih =>
    intro h
    rw [List.mapM_cons, h a (List.mem_cons_self a as), exceptBind_ok,
      ih (fun x hx => h x (List.mem_cons_of_mem a hx)), exceptBind_ok]
    rfl

/-!
Characterization of the normalizer on well- and ill-shaped regions.
-/

/-- Placeholder entry for total indexing in `rowAt`; it is only ever
read at indexes proved in range. -/
def defaultEntry : RawTimeEntry := { startTime := "", endTime := "", parameterName := "" }

/-- The row the loop body builds at index `i`, written directly from
the four series: each cell is the series value at the matching index. -/
def rowAt (cityName : String) (wx ps ms xs : List RawTimeEntry) (i : Nat) : RawRow :=
  { city := cityName
    startTime := (wx.getD i defaultEntry).startTime
    endTime := (wx.getD i defaultEntry).endTime
    weather := (wx.getD i defaultEntry).parameterName
    pop := (ps.getD i defaultEntry).parameterName
    minT := (ms.getD i defaultEntry).parameterName
    maxT := (xs.getD i defaultEntry).parameterName }

theorem getParam_ok {loc : RawLocation} {name : String} {i : Nat} {ts : List RawTimeEntry}
    (hts : elementsOf loc.weatherElement name = some ts) (hi : i < ts.length) :
    getParam loc name i = Except.ok (ts.getD i defaultEntry) := by
  unfold getParam
  rw [hts]
  dsimp only
  rw [List.getElem?_eq_getElem hi]
  dsimp only
  rw [List.getD_eq_getElem ts defaultEntry hi]

theorem getParam_missing {loc : RawLocation} {name : String} (i : Nat)
    (hts : elementsOf loc.weatherElement name = none) :
    getParam loc name i = Except.error (ParseError.keyError name) := by
  unfold getParam
  rw [hts]

theorem getParam_short {loc : RawLocation} {name : String} {i : Nat} {ts : List RawTimeEntry}
    (hts : elementsOf loc.weatherElement name = some ts) (hi : ts.length ≤ i) :
    getParam loc name i = Except.error (ParseError.indexError name i) := by
  unfold getParam
  rw [hts]
  dsimp only
  rw [List.getElem?_eq_none hi]

theorem buildRow_eq_rowAt {loc : RawLocation} {wx ps ms xs : List RawTimeEntry} {i : Nat}
    (hwx : elementsOf loc.weatherElement "Wx" = some wx)
    (hp : elementsOf loc.weatherElement "PoP" = some ps)
    (hm : elementsOf loc.weatherElement "MinT" = some ms)
    (hx : elementsOf loc.weatherElement "MaxT" = some xs)
    (hiw : i < wx.length) (hip : i < ps.length) (him : i < ms.length) (hix : i < xs.length) :
    buildRow loc i = Except.ok (rowAt loc.locationName wx ps ms xs i) := by
  unfold buildRow
  rw [getParam_ok hwx hiw, exceptBind_ok, getParam_ok hp hip, exceptBind_ok,
    getParam_ok hm him, exceptBind_ok, getParam_ok hx hix, exceptBind_ok]
  rfl

/-- If the row at index `i` was built without an exception, every
series subscript it performs succeeded. -/
theorem buildRow_ok_getParam {loc : RawLocation} {i : Nat} {row : RawRow}
    (h : buildRow loc i = Except.ok row) :
    (∃ t, getParam loc "Wx" i = Except.ok t) ∧ (∃ t, getParam loc "PoP" i = Except.ok t) ∧
      (∃ t, getParam loc "MinT" i = Except.ok t) ∧
      (∃ t, getParam loc "MaxT" i = Except.ok t) := by
  unfold buildRow at h
  cases h1 : getParam loc "Wx" i with
  | error e => rw [h1, exceptBind_error] at h; exact Except.noConfusion h
  | ok t1 =>
    rw [h1, exceptBind_ok] at h
    cases h2 : getParam loc "PoP" i with
    | error e => rw [h2, exceptBind_error] at h; exact Except.noConfusion h
    | ok t2 =>
      rw [h2, exceptBind_ok] at h
      cases h3 : getParam loc "MinT" i with
      | error e => rw [h3, exceptBind_error] at h; exact Except.noConfusion h
      | ok t3 =>
        rw [h3, exceptBind_ok] at h
        cases h4 : getParam loc "MaxT" i with
        | error e => rw [h4, exceptBind_error] at h; exact Except.noConfusion h
        | ok t4 => exact ⟨⟨t1, rfl⟩, ⟨t2, rfl⟩, ⟨t3, rfl⟩, ⟨t4, rfl⟩⟩

theorem parseLocation_eq {loc : RawLocation} {wx ps ms xs : List RawTimeEntry}
    (hwx : elementsOf loc.weatherElement "Wx" = some wx)
    (hp : elementsOf loc.weatherElement "PoP" = some ps)
    (hm : elementsOf loc.weatherElement "MinT" = some ms)
    (hx : elementsOf loc.weatherElement "MaxT" = some xs)
    (hlp : wx.length ≤ ps.length) (hlm : wx.length ≤ ms.length)
    (hlx : wx.length ≤ xs.length) :
    parseLocation loc =
      Except.ok ((List.range wx.length).map (rowAt loc.locationName wx ps ms xs)) := by
  unfold parseLocation
  rw [hwx]
  refine mapM_eq_ok_map _ _ _ (fun i hi => ?_)
  have hiw : i < wx.length := List.mem_range.mp hi
  exact buildRow_eq_rowAt hwx hp hm hx hiw (lt_of_lt_of_le hiw hlp)
    (lt_of_lt_of_le hiw hlm) (lt_of_lt_of_le hiw hlx)

/-- A region's element series, with a missing element embedded as the
empty series (used only to phrase row counts; `parse_cwa_data` itself
distinguishes a missing element and raises). -/
def seriesOf (loc : RawLocation) (name : String) : List RawTimeEntry :=
  (elementsOf loc.weatherElement name).getD []

/-- The row count the loop derives for a region: the length of its
condition (`Wx`) series. -/
def wxLen (loc : RawLocation) : Nat := (seriesOf loc "Wx").length

/-- A region is well-formed when all four required element series are
present and have the length of the `Wx` series. -/
def validRegion (loc : RawLocation) : Bool :=
  match elementsOf loc.weatherElement "Wx", elementsOf loc.weatherElement "PoP",
      elementsOf loc.weatherElement "MinT", elementsOf loc.weatherElement "MaxT" with
  | some wx, some ps, some ms, some xs =>
    ps.length == wx.length && ms.length == wx.length && xs.length == wx.length
  | _, _, _, _ => false

/-- The rows a well-formed region contributes. -/
def regionRows (loc : RawLocation) : List RawRow :=
  (List.range (wxLen loc)).map
    (rowAt loc.locationName (seriesOf loc "Wx") (seriesOf loc "PoP")
      (seriesOf loc "MinT") (seriesOf loc "MaxT"))

theorem parseLocation_of_valid (loc : RawLocation) (h : validRegion loc = true) :
    parseLocation loc = Except.ok (regionRows loc) := by
  unfold validRegion at h
  cases hwx : elementsOf loc.weatherElement "Wx" with
  | none => rw [hwx] at h; simp at h
  | some wx =>
    cases hp : elementsOf loc.weatherElement "PoP" with
    | none => rw [hwx, hp] at h; simp at h
    | some ps =>
      cases hm : elementsOf loc.weatherElement "MinT" with
      | none => rw [hwx, hp, hm] at h; simp at h
      | some ms =>
        cases hx : elementsOf loc.weatherElement "MaxT" with
        | none => rw [hwx, hp, hm, hx] at h; simp at h
        | some xs =>
          rw [hwx, hp, hm, hx] at h
          simp only [Bool.and_eq_true, beq_iff_eq] at h
          obtain ⟨⟨hps, hms⟩, hxs⟩ := h
          have hsw : seriesOf loc "Wx" = wx := by unfold seriesOf; rw [hwx]; rfl
          have hsp : seriesOf loc "PoP" = ps := by unfold seriesOf; rw [hp]; rfl
          have hsm : seriesOf loc "MinT" = ms := by unfold seriesOf; rw [hm]; rfl
          have hsx : seriesOf loc "MaxT" = xs := by unfold seriesOf; rw [hx]; rfl
          unfold regionRows wxLen
          rw [hsw, hsp, hsm, hsx]
          exact parseLocation_eq hwx hp hm hx (le_of_eq hps.symm) (le_of_eq hms.symm)
            (le_of_eq hxs.symm)

theorem regionRows_length (loc : RawLocation) : (regionRows loc).length = wxLen loc := by
  unfold regionRows
  rw [List.length_map, List.length_range]

theorem mem_uniqueFirstAux :
    ∀ (l seen : List String) (x : String), x ∈ uniqueFirstAux l seen ↔ x ∈ l ∧ x ∉ seen := by
  intro l
  induction l with
  | nil => intro seen x; simp [uniqueFirstAux]
  | cons y l ih =>
    intro seen x
    unfold uniqueFirstAux
    by_cases hy : y ∈ seen
    · rw [if_pos hy, ih]
      constructor
      · rintro ⟨hxl, hxs⟩
        exact ⟨List.mem_cons_of_mem y hxl, hxs⟩
      · rintro ⟨hxl, hxs⟩
        rcases List.mem_cons.mp hxl with rfl | h2
        · exact absurd hy hxs
        · exact ⟨h2, hxs⟩
    · rw [if_neg hy]
      constructor
      · intro hx
        rcases List.mem_cons.mp hx with rfl | h2
        · exact ⟨List.mem_cons_self x l, hy⟩
        · obtain ⟨hxl, hxs⟩ := (ih (y :: seen) x).mp h2
          exact ⟨List.mem_cons_of_mem y hxl,
            fun hc => hxs (List.mem_cons_of_mem y hc)⟩
      · rintro ⟨hxl, hxs⟩
        rcases List.mem_cons.mp hxl with rfl | h2
        · exact List.mem_cons_self x _
        · by_cases hxy : x = y
          · subst hxy; exact List.mem_cons_self x _
          · refine List.mem_cons_of_mem y ((ih (y :: seen) x).mpr ⟨h2, fun hc => ?_⟩)
            rcases List.mem_cons.mp hc with h3 | h3
            · exact hxy h3
            · exact hxs h3

theorem nodup_uniqueFirstAux : ∀ (l seen : List String), (uniqueFirstAux l seen).Nodup := by
  intro l
  induction l with
  | nil => intro seen; exact List.nodup_nil
  | cons y l ih =>
    intro seen
    unfold uniqueFirstAux
    by_cases hy : y ∈ seen
    · rw [if_pos hy]; exact ih seen
    · rw [if_neg hy]
      refine List.nodup_cons.mpr ⟨fun hc => ?_, ih (y :: seen)⟩
      exact ((mem_uniqueFirstAux l (y :: seen) y).mp hc).2 (List.mem_cons_self y seen)

theorem mem_uniqueFirst (l : List String) (x : String) : x ∈ uniqueFirst l ↔ x ∈ l := by
  unfold uniqueFirst
  rw [mem_uniqueFirstAux]
  simp

/-!
Claim theorems, with their concrete inputs.
-/

/-- Shorthand for one `time` entry. -/
def mkEntry (s e p : String) : RawTimeEntry :=
  { startTime := s, endTime := e, parameterName := p }

/-- C8 (amended). For every valid document (all regions well-formed)
with at least one forecast row in total, the normalized output length
equals the sum over regions of that region's condition-series length; a
zero-point region then contributes zero records without error, and
duplicate region names stay separate entries (the sum runs over the
location list, not a set of names). A valid document whose total is
zero instead raises `KeyError('pop')` at the numeric coercion of the
column-less empty DataFrame (see `c8_counterexample`). -/
theorem parse_length_eq_sum (doc : RawDoc)
    (h : ∀ loc ∈ doc.location, validRegion loc = true)
    (hnz : (doc.location.map wxLen).sum ≠ 0) :
    ∃ rows, parse_cwa_data doc = Except.ok rows ∧
      rows.length = (doc.location.map wxLen).sum := by
  have hb : doc.location.mapM parseLocation = Except.ok (doc.location.map regionRows) :=
    mapM_eq_ok_map _ _ _ (fun loc hl => parseLocation_of_valid loc (h loc hl))
  have hbr : buildRawRows doc = Except.ok ((doc.location.map regionRows).flatten) := by
    unfold buildRawRows
    rw [hb, exceptBind_ok]
  have hlen : ((doc.location.map regionRows).flatten).length =
      (doc.location.map wxLen).sum := by
    rw [List.length_flatten, List.map_map]
    rw [show (List.length ∘ regionRows) = wxLen from funext regionRows_length]
  refine ⟨((doc.location.map regionRows).flatten).map coerceRow, ?_, ?_⟩
  · unfold parse_cwa_data
    rw [hbr, exceptBind_ok]
    cases hfl : (doc.location.map regionRows).flatten with
    | nil =>
      exfalso
      rw [hfl, List.length_nil] at hlen
      exact hnz hlen.symm
    | cons r rs => rfl
  · rw [List.length_map, hlen]

/-- Two aligned time points for "Taipei City". -/
def c8LocA : RawLocation :=
  { locationName := "Taipei City"
    weatherElement :=
      [ { elementName := "Wx", time := [mkEntry "t0" "t1" "Cloudy", mkEntry "t1" "t2" "Sunny"] }
      , { elementName := "PoP", time := [mkEntry "t0" "t1" "10", mkEntry "t1" "t2" "20"] }
      , { elementName := "MinT", time := [mkEntry "t0" "t1" "18", mkEntry "t1" "t2" "17"] }
      , { elementName := "MaxT", time := [mkEntry "t0" "t1" "24", mkEntry "t1" "t2" "23"] } ] }

/-- A duplicate "Taipei City" entry with one time point. -/
def c8LocB : RawLocation :=
  { locationName := "Taipei City"
    weatherElement :=
      [ { elementName := "Wx", time := [mkEntry "t2" "t3" "Rainy"] }
      , { elementName := "PoP", time := [mkEntry "t2" "t3" "70"] }
      , { elementName := "MinT", time := [mkEntry "t2" "t3" "16"] }
      , { elementName := "MaxT", time := [mkEntry "t2" "t3" "20"] } ] }

/-- A region with zero time points in all four series. -/
def c8LocC : RawLocation :=
  { locationName := "Empty Town"
    weatherElement :=
      [ { elementName := "Wx", time := [] }
      , { elementName := "PoP", time := [] }
      , { elementName := "MinT", time := [] }
      , { elementName := "MaxT", time := [] } ] }

/-- A valid document with duplicate region names and a zero-point region. -/
def c8Doc : RawDoc := { location := [c8LocA, c8LocB, c8LocC] }

/-- Witness for C8 (amended): the concrete valid document — with its
zero-point region and its duplicated "Taipei City" — yields
2 + 1 + 0 = 3 records. -/
theorem parse_length_eq_sum_witness :
    (∃ rows, parse_cwa_data c8Doc = Except.ok rows ∧
      rows.length = (c8Doc.location.map wxLen).sum) ∧
    (c8Doc.location.map wxLen).sum = 3 :=
  ⟨parse_length_eq_sum c8Doc (by decide) (by decide), by decide⟩

/-- A valid document consisting solely of the zero-point region. -/
def c8EmptyDoc : RawDoc := { location := [c8LocC] }

/-- Counterexample for C8 as stated: `c8EmptyDoc` is valid (its one
region is well-formed with all four series present and of equal length
zero), so the claim demands zero records and no error; the source
instead builds a zero-row DataFrame with no columns and raises
`KeyError('pop')` at the numeric coercion. -/
theorem c8_counterexample :
    (∀ loc ∈ c8EmptyDoc.location, validRegion loc = true) ∧
    parse_cwa_data c8EmptyDoc = Except.error (ParseError.keyError "pop") := by decide

/-- C10 (amended). The per-region row count is derived solely from the
length of the `Wx` series: whenever `PoP`, `MinT` and `MaxT` are each
at least as long as `Wx` (including strictly longer), the loop builds
exactly `len(Wx)` rows with no error and no rejection, the row at index
`i` drawing the value at index `i` of each series; and provided
`len(Wx) > 0`, a document of just this region normalizes end to end
into those rows. (With `len(Wx) = 0` the loop still contributes zero
rows, but a document of just this region yields a zero-row frame whose
numeric coercion raises `KeyError('pop')` — see `c10_counterexample`.) -/
theorem parseLocation_len_from_wx (loc : RawLocation) (wx ps ms xs : List RawTimeEntry)
    (hwx : elementsOf loc.weatherElement "Wx" = some wx)
    (hp : elementsOf loc.weatherElement "PoP" = some ps)
    (hm : elementsOf loc.weatherElement "MinT" = some ms)
    (hx : elementsOf loc.weatherElement "MaxT" = some xs)
    (hlp : wx.length ≤ ps.length) (hlm : wx.length ≤ ms.length)
    (hlx : wx.length ≤ xs.length) :
    parseLocation loc =
      Except.ok ((List.range wx.length).map (rowAt loc.locationName wx ps ms xs)) ∧
    ((List.range wx.length).map (rowAt loc.locationName wx ps ms xs)).length = wx.length ∧
    (∀ i, i < wx.length →
      ((List.range wx.length).map (rowAt loc.locationName wx ps ms xs))[i]? =
        some (rowAt loc.locationName wx ps ms xs i)) ∧
    (0 < wx.length →
      parse_cwa_data { location := [loc] } =
        Except.ok (((List.range wx.length).map (rowAt loc.locationName wx ps ms xs)).map
          coerceRow)) := by
  have h1 := parseLocation_eq hwx hp hm hx hlp hlm hlx
  refine ⟨h1, by rw [List.length_map, List.length_range], fun i hi => ?_, fun hpos => ?_⟩
  · rw [List.getElem?_map, List.getElem?_range hi]
    rfl
  · have hbr : buildRawRows { location := [loc] } =
        Except.ok (((List.range wx.length).map (rowAt loc.locationName wx ps ms xs)) ++ []) := by
      unfold buildRawRows
      rw [List.mapM_cons, h1, exceptBind_ok, List.mapM_nil]
      rfl
    rw [List.append_nil] at hbr
    obtain ⟨r, rs, hcons⟩ : ∃ r rs,
        (List.range wx.length).map (rowAt loc.locationName wx ps ms xs) = r :: rs := by
      cases hR : (List.range wx.length).map (rowAt loc.locationName wx ps ms xs) with
      | nil =>
        exfalso
        have hlen := congrArg List.length hR
        rw [List.length_map, List.length_range, List.length_nil] at hlen
        omega
      | cons r rs => exact ⟨r, rs, rfl⟩
    unfold parse_cwa_data
    rw [hbr, exceptBind_ok, hcons]

/-- C10 witness data: `Wx` has 2 points, `PoP`/`MinT` 3, `MaxT` 4. -/
def c10Wx : List RawTimeEntry := [mkEntry "t0" "t1" "Cloudy", mkEntry "t1" "t2" "Sunny"]

/-- See `c10Wx`. -/
def c10Pop : List RawTimeEntry :=
  [mkEntry "t0" "t1" "10", mkEntry "t1" "t2" "20", mkEntry "t2" "t3" "30"]

/-- See `c10Wx`. -/
def c10Min : List RawTimeEntry :=
  [mkEntry "t0" "t1" "18", mkEntry "t1" "t2" "17", mkEntry "t2" "t3" "16"]

/-- See `c10Wx`. -/
def c10Max : List RawTimeEntry :=
  [mkEntry "t0" "t1" "24", mkEntry "t1" "t2" "23", mkEntry "t2" "t3" "22",
    mkEntry "t3" "t4" "21"]

/-- See `c10Wx`. -/
def c10Loc : RawLocation :=
  { locationName := "New Taipei City"
    weatherElement :=
      [ { elementName := "Wx", time := c10Wx }
      , { elementName := "PoP", time := c10Pop }
      , { elementName := "MinT", time := c10Min }
      , { elementName := "MaxT", time := c10Max } ] }

/-- Witness for C10: the longer tails of `PoP`/`MinT`/`MaxT` are ignored
and exactly `len(Wx) = 2` rows come out. -/
theorem parseLocation_len_from_wx_witness :
    parseLocation c10Loc =
      Except.ok ((List.range c10Wx.length).map
        (rowAt c10Loc.locationName c10Wx c10Pop c10Min c10Max)) ∧
    ((List.range c10Wx.length).map
      (rowAt c10Loc.locationName c10Wx c10Pop c10Min c10Max)).length = c10Wx.length ∧
    (∀ i, i < c10Wx.length →
      ((List.range c10Wx.length).map
        (rowAt c10Loc.locationName c10Wx c10Pop c10Min c10Max))[i]? =
        some (rowAt c10Loc.locationName c10Wx c10Pop c10Min c10Max i)) ∧
    parse_cwa_data { location := [c10Loc] } =
      Except.ok (((List.range c10Wx.length).map
        (rowAt c10Loc.locationName c10Wx c10Pop c10Min c10Max)).map coerceRow) := by
  have h := parseLocation_len_from_wx c10Loc c10Wx c10Pop c10Min c10Max (by decide)
    (by decide) (by decide) (by decide) (by decide) (by decide) (by decide)
  exact ⟨h.1, h.2.1, h.2.2.1, h.2.2.2 (by decide)⟩

/-- C10 counterexample data: a region whose `Wx` series is empty while
`PoP` has an entry — so `PoP`, `MinT`, `MaxT` are each at least as long
as `Wx`. -/
def c10EmptyLoc : RawLocation :=
  { locationName := "Penghu County"
    weatherElement :=
      [ { elementName := "Wx", time := [] }
      , { elementName := "PoP", time := [mkEntry "t0" "t1" "10"] }
      , { elementName := "MinT", time := [] }
      , { elementName := "MaxT", time := [] } ] }

/-- Counterexample for C10 as stated: for `c10EmptyLoc` the claim
demands `len(Wx) = 0` records with no error; on a document of just this
region the loop indeed appends no row, but the zero-row DataFrame has
no columns and the source raises `KeyError('pop')` at the numeric
coercion instead of succeeding. -/
theorem c10_counterexample :
    parse_cwa_data { location := [c10EmptyLoc] } =
      Except.error (ParseError.keyError "pop") := by decide

/-- C1 (amended). If a region's `Wx` series is present and one of the
other required series (`PoP`, `MinT` or `MaxT`) is present but shorter
than `Wx`, normalization raises (an `IndexError` or an earlier
exception) and aborts the entire batch, emitting no records at all: the
region is not skipped and the remaining regions are not processed. -/
theorem parse_aborts_on_short_series (doc : RawDoc) (loc : RawLocation) (name : String)
    (ser wx : List RawTimeEntry)
    (hmem : loc ∈ doc.location)
    (hwx : elementsOf loc.weatherElement "Wx" = some wx)
    (hn : name = "PoP" ∨ name = "MinT" ∨ name = "MaxT")
    (hser : elementsOf loc.weatherElement name = some ser)
    (hlt : ser.length < wx.length) :
    ∃ e, parse_cwa_data doc = Except.error e := by
  cases hres : parse_cwa_data doc with
  | error e => exact ⟨e, rfl⟩
  | ok rows =>
    exfalso
    unfold parse_cwa_data at hres
    cases hbr : buildRawRows doc with
    | error e => rw [hbr, exceptBind_error] at hres; exact Except.noConfusion hres
    | ok rrows =>
      unfold buildRawRows at hbr
      cases hmap : doc.location.mapM parseLocation with
      | error e => rw [hmap, exceptBind_error] at hbr; exact Except.noConfusion hbr
      | ok blocks =>
        obtain ⟨rws, hloc⟩ := mapM_ok_forall _ _ _ hmap loc hmem
        unfold parseLocation at hloc
        rw [hwx] at hloc
        obtain ⟨row, hrow⟩ :=
          mapM_ok_forall _ _ _ hloc ser.length (List.mem_range.mpr hlt)
        obtain ⟨hWx, hPoP, hMinT, hMaxT⟩ := buildRow_ok_getParam hrow
        have hshort : getParam loc name ser.length =
            Except.error (ParseError.indexError name ser.length) :=
          getParam_short hser (le_refl _)
        rcases hn with rfl | rfl | rfl
        · obtain ⟨t, ht⟩ := hPoP; rw [hshort] at ht; exact Except.noConfusion ht
        · obtain ⟨t, ht⟩ := hMinT; rw [hshort] at ht; exact Except.noConfusion ht
        · obtain ⟨t, ht⟩ := hMaxT; rw [hshort] at ht; exact Except.noConfusion ht

/-- C1 data: the misaligned region — `Wx` has 3 points, `PoP` only 2. -/
def c1WxB : List RawTimeEntry :=
  [mkEntry "t0" "t1" "Rainy", mkEntry "t1" "t2" "Rainy", mkEntry "t2" "t3" "Cloudy"]

/-- See `c1WxB`. -/
def c1PopB : List RawTimeEntry := [mkEntry "t0" "t1" "80", mkEntry "t1" "t2" "60"]

/-- See `c1WxB`. -/
def c1MinB : List RawTimeEntry :=
  [mkEntry "t0" "t1" "15", mkEntry "t1" "t2" "14", mkEntry "t2" "t3" "15"]

/-- See `c1WxB`. -/
def c1MaxB : List RawTimeEntry :=
  [mkEntry "t0" "t1" "19", mkEntry "t1" "t2" "18", mkEntry "t2" "t3" "19"]

/-- A well-formed region placed before the misaligned one. -/
def c1LocA : RawLocation :=
  { locationName := "Taipei City"
    weatherElement :=
      [ { elementName := "Wx", time := [mkEntry "t0" "t1" "Cloudy"] }
      , { elementName := "PoP", time := [mkEntry "t0" "t1" "10"] }
      , { elementName := "MinT", time := [mkEntry "t0" "t1" "18"] }
      , { elementName := "MaxT", time := [mkEntry "t0" "t1" "24"] } ] }

/-- The misaligned region (see `c1WxB`). -/
def c1LocB : RawLocation :=
  { locationName := "Keelung City"
    weatherElement :=
      [ { elementName := "Wx", time := c1WxB }
      , { elementName := "PoP", time := c1PopB }
      , { elementName := "MinT", time := c1MinB }
      , { elementName := "MaxT", time := c1MaxB } ] }

/-- A well-formed region placed after the misaligned one. -/
def c1LocC : RawLocation :=
  { locationName := "Taichung City"
    weatherElement :=
      [ { elementName := "Wx", time := [mkEntry "t0" "t1" "Sunny"] }
      , { elementName := "PoP", time := [mkEntry "t0" "t1" "0"] }
      , { elementName := "MinT", time := [mkEntry "t0" "t1" "20"] }
      , { elementName := "MaxT", time := [mkEntry "t0" "t1" "28"] } ] }

/-- Scenario B's document: a misaligned region between two valid ones. -/
def c1Doc : RawDoc := { location := [c1LocA, c1LocB, c1LocC] }

/-- Counterexample for C1 as stated: on `c1Doc` the claim demands that
normalization skip "Keelung City", emit the records of the two valid
regions and continue; the code instead raises `IndexError` at
`elements["PoP"][2]` and the whole normalization aborts, emitting
nothing. -/
theorem c1_counterexample :
    parse_cwa_data c1Doc = Except.error (ParseError.indexError "PoP" 2) := by decide

/-- Witness for C1 (amended), at Scenario B's concrete document. -/
theorem parse_aborts_on_short_series_witness :
    ∃ e, parse_cwa_data c1Doc = Except.error e :=
  parse_aborts_on_short_series c1Doc c1LocB "PoP" c1PopB c1WxB (by decide) (by decide)
    (Or.inl rfl) (by decide) (by decide)

/-- C6. Numeric coercion never raises and never drops a record: once
the raw rows are built — and there is at least one, so the DataFrame
has its columns (a record whose text fails to parse presupposes the
record exists) — normalization succeeds, keeps every record (same
length), and each record's `pop`/`minT`/`maxT` is `toNumeric` of the
raw text — `none` (NaN) exactly when the text fails to parse — while
the non-numeric fields pass through unchanged. -/
theorem coerce_keeps_rows (doc : RawDoc) (rawRows : List RawRow)
    (h : buildRawRows doc = Except.ok rawRows) (hne : rawRows ≠ []) :
    parse_cwa_data doc = Except.ok (rawRows.map coerceRow) ∧
    (rawRows.map coerceRow).length = rawRows.length ∧
    ∀ r ∈ rawRows,
      (coerceRow r).city = r.city ∧ (coerceRow r).startTime = r.startTime ∧
      (coerceRow r).endTime = r.endTime ∧ (coerceRow r).weather = r.weather ∧
      (coerceRow r).pop = toNumeric r.pop ∧ (coerceRow r).minT = toNumeric r.minT ∧
      (coerceRow r).maxT = toNumeric r.maxT := by
  obtain ⟨r0, rs, rfl⟩ : ∃ r0 rs, rawRows = r0 :: rs := by
    cases rawRows with
    | nil => exact absurd rfl hne
    | cons r0 rs => exact ⟨r0, rs, rfl⟩
  refine ⟨?_, List.length_map _ _, fun r _ => ⟨rfl, rfl, rfl, rfl, rfl, rfl, rfl⟩⟩
  unfold parse_cwa_data
  rw [h, exceptBind_ok]

/-- C6 data: a region whose numeric texts are partly unparseable. -/
def c6Loc : RawLocation :=
  { locationName := "Hualien County"
    weatherElement :=
      [ { elementName := "Wx", time := [mkEntry "t0" "t1" "Sunny", mkEntry "t1" "t2" "Rainy"] }
      , { elementName := "PoP", time := [mkEntry "t0" "t1" "xx", mkEntry "t1" "t2" "30"] }
      , { elementName := "MinT", time := [mkEntry "t0" "t1" "N/A", mkEntry "t1" "t2" "17"] }
      , { elementName := "MaxT", time := [mkEntry "t0" "t1" "24", mkEntry "t1" "t2" "23"] } ] }

/-- See `c6Loc`. -/
def c6Doc : RawDoc := { location := [c6Loc] }

/-- The raw rows `c6Doc` builds. -/
def c6Raw : List RawRow :=
  [ { city := "Hualien County", startTime := "t0", endTime := "t1", weather := "Sunny",
      pop := "xx", minT := "N/A", maxT := "24" }
  , { city := "Hualien County", startTime := "t1", endTime := "t2", weather := "Rainy",
      pop := "30", minT := "17", maxT := "23" } ]

/-- Witness for C6: both records are kept even though `"xx"` and
`"N/A"` fail to parse; the failed cells are NaN (`none`). -/
theorem coerce_keeps_rows_witness :
    parse_cwa_data c6Doc = Except.ok (c6Raw.map coerceRow) ∧
    toNumeric "xx" = none ∧ toNumeric "N/A" = none ∧
    (c6Raw.map coerceRow).length = 2 :=
  ⟨(coerce_keeps_rows c6Doc c6Raw (by decide) (by decide)).1, by decide, by decide, by decide⟩

/-- Counterexample for C2: no normalized record carries an
`approx_temp` field at all. The row dicts built by `parse_cwa_data`
have exactly the keys `rowKeys`, and the `pd.to_numeric` assignments
replace three of those columns without adding any; `"approx_temp"` is
not among them, so the claimed field (and the midpoint stored in it)
does not exist in the output. -/
theorem c2_counterexample : "approx_temp" ∉ rowKeys := by decide

/-- C2 (amended). The normalizer stores no `approx_temp` field: the
output columns are exactly `rowKeys`. The parsed `minT`/`maxT` of every
record are `toNumeric` of the raw text, and the spec's midpoint
`approxTempSpec`, applied to them from outside, is `(minT + maxT) / 2`
when both parsed and empty otherwise — e.g. `"18"`/`"24"` give `21`,
`"N/A"` gives an empty `minT` and an empty midpoint — but no such value
is computed or stored by the code. -/
theorem approx_midpoint_not_stored :
    "approx_temp" ∉ rowKeys ∧
    (∀ r : RawRow, approxTempSpec (coerceRow r).minT (coerceRow r).maxT =
      match toNumeric r.minT, toNumeric r.maxT with
      | some a, some b => some ((a + b) / 2)
      | _, _ => none) ∧
    toNumeric "18" = some 18 ∧ toNumeric "24" = some 24 ∧
    approxTempSpec (some 18) (some 24) = some 21 ∧
    toNumeric "N/A" = none ∧ approxTempSpec none (some 24) = none := by
  refine ⟨by decide, fun r => rfl, ?_, ?_, ?_, by decide, rfl⟩
  · rw [show toNumeric "18" = some (1 * ((18 : Nat) : Rat)) from rfl]
    norm_num
  · rw [show toNumeric "24" = some (1 * ((24 : Nat) : Rat)) from rfl]
    norm_num
  · show some ((18 + 24 : Rat) / 2) = some 21
    norm_num

/-- Counterexample for C3: on an empty per-region result set (here: a
record set with no row for the requested region) the code's
current-record selection `city_df.iloc[0]` fails with pandas'
`IndexError`, not with the explicit `EmptyResultError` the claim
states. -/
theorem c3_counterexample :
    currentRecord (for_region [] "Taipei City") = Except.error SelectError.indexError ∧
    currentRecord (for_region [] "Taipei City") ≠ Except.error SelectError.emptyResultError ∧
    currentRecord (for_region [] "Taipei City") ≠ currentSpec (for_region [] "Taipei City") := by
  decide

/-- C3 (amended). On an empty per-region result set the current-record
selection faults with an (uncaught) `IndexError` rather than an
explicit `EmptyResultError`; on a non-empty set it returns the first
record after sorting by `interval_start`, i.e. a matching record whose
`startTime` is minimal among the matches. -/
theorem current_first_after_sort (rows : List ForecastRow) (city : String) :
    (for_region rows city = [] →
      currentRecord (for_region rows city) = Except.error SelectError.indexError) ∧
    (for_region rows city ≠ [] →
      ∃ r, currentRecord (for_region rows city) = Except.ok r ∧
        r ∈ rows.filter (fun x => x.city == city) ∧
        ∀ q ∈ rows.filter (fun x => x.city == city), strLe r.startTime q.startTime) := by
  constructor
  · intro h; rw [h]; rfl
  · intro h
    cases hfr : for_region rows city with
    | nil => exact absurd hfr h
    | cons r rest =>
      have hperm : (for_region rows city).Perm (rows.filter (fun x => x.city == city)) :=
        List.perm_insertionSort startTimeLe _
      refine ⟨r, rfl, ?_, ?_⟩
      · exact hperm.mem_iff.mp (by rw [hfr]; exact List.mem_cons_self r rest)
      · intro q hq
        have hq2 : q ∈ for_region rows city := hperm.mem_iff.mpr hq
        rw [hfr] at hq2
        rcases List.mem_cons.mp hq2 with rfl | hq3
        · exact strLe_refl _
        · have hsorted : List.Sorted startTimeLe (for_region rows city) :=
            List.sorted_insertionSort startTimeLe _
          rw [hfr] at hsorted
          exact List.rel_of_sorted_cons hsorted q hq3

/-- C3 data: two Taipei records out of chronological order plus an
unrelated region. -/
def c3RowLate : ForecastRow :=
  { city := "Taipei City", startTime := "2024-01-02 06:00:00", endTime := "2024-01-02 18:00:00",
    weather := "Cloudy", pop := none, minT := none, maxT := none }

/-- See `c3RowLate`. -/
def c3RowEarly : ForecastRow :=
  { city := "Taipei City", startTime := "2024-01-01 18:00:00", endTime := "2024-01-02 06:00:00",
    weather := "Sunny", pop := none, minT := none, maxT := none }

/-- See `c3RowLate`. -/
def c3RowOther : ForecastRow :=
  { city := "Kaohsiung City", startTime := "2024-01-01 06:00:00", endTime := "2024-01-01 18:00:00",
    weather := "Rainy", pop := none, minT := none, maxT := none }

/-- See `c3RowLate`. -/
def c3Rows : List ForecastRow := [c3RowLate, c3RowOther, c3RowEarly]

/-- Witness for C3 (amended): on a non-empty per-region set the
selection returns a matching record of minimal `startTime`. -/
theorem current_first_after_sort_witness :
    ∃ r, currentRecord (for_region c3Rows "Taipei City") = Except.ok r ∧
      r ∈ c3Rows.filter (fun x => x.city == "Taipei City") ∧
      ∀ q ∈ c3Rows.filter (fun x => x.city == "Taipei City"), strLe r.startTime q.startTime :=
  (current_first_after_sort c3Rows "Taipei City").2 (by decide)

/-- C9. `cities` (the `regions` operation) returns the distinct region
names — no duplicates, each name present iff some record carries it —
ordered lexicographically by code point. -/
theorem cities_nodup_sorted (rows : List ForecastRow) :
    (cities rows).Nodup ∧ List.Sorted strLe (cities rows) ∧
    ∀ c, c ∈ cities rows ↔ c ∈ rows.map (fun r => r.city) := by
  have hperm : (cities rows).Perm (uniqueFirst (rows.map (fun r => r.city))) :=
    List.perm_insertionSort strLe _
  refine ⟨hperm.nodup_iff.mpr (nodup_uniqueFirstAux _ _), ?_, fun c => ?_⟩
  · exact List.sorted_insertionSort strLe _
  · rw [hperm.mem_iff, mem_uniqueFirst]

theorem fetchMiss_failure (now : Nat) (net : Nat → NetOutcome) (s : FetchState) (e : FetchError)
    (h : (fetchMiss now net s).1 = Except.error e) :
    (fetchMiss now net s).2.cache = s.cache ∧ fetchOnce (net s.calls) = Except.error e := by
  unfold fetchMiss at h ⊢
  cases hf : fetchOnce (net s.calls) with
  | ok d =>
    rw [hf] at h
    exact Except.noConfusion h
  | error e2 =>
    rw [hf] at h
    have h2 : (Except.error e2 : Except FetchError RawDoc) = Except.error e := h
    have he : e2 = e := by injection h2
    subst he
    exact ⟨rfl, rfl⟩

/-- C4. Whenever the fetch fails — the issued request timed out, got a
4xx/5xx status such as HTTP 500, or returned an unparseable body — the
call propagates the error of that network outcome (the underlying
cause) and the cache slot is left exactly as it was, so a previously
stored entry stays stored. -/
theorem fetch_failure_keeps_cache (ttl now : Nat) (net : Nat → NetOutcome)
    (s : FetchState) (e : FetchError)
    (h : (fetch_cwa_weather ttl now net s).1 = Except.error e) :
    (fetch_cwa_weather ttl now net s).2.cache = s.cache ∧
    fetchOnce (net s.calls) = Except.error e := by
  unfold fetch_cwa_weather at h ⊢
  cases hc : s.cache with
  | none =>
    rw [hc] at h
    have h2 : (fetchMiss now net s).1 = Except.error e := h
    obtain ⟨h1, h3⟩ := fetchMiss_failure now net s e h2
    exact ⟨h1.trans hc, h3⟩
  | some entry =>
    rw [hc] at h
    by_cases hv : now - entry.2 ≤ ttl
    · have h2 : (if now - entry.2 ≤ ttl then (Except.ok entry.1, s)
          else fetchMiss now net s).1 = Except.error e := h
      rw [if_pos hv] at h2
      exact Except.noConfusion h2
    · have h2 : (fetchMiss now net s).1 = Except.error e := by
        have h3 : (if now - entry.2 ≤ ttl then (Except.ok entry.1, s)
            else fetchMiss now net s).1 = Except.error e := h
        rw [if_neg hv] at h3
        exact h3
      obtain ⟨h1, h3⟩ := fetchMiss_failure now net s e h2
      refine ⟨?_, h3⟩
      have h4 : (if now - entry.2 ≤ ttl then (Except.ok entry.1, s)
          else fetchMiss now net s).2.cache = some entry := by
        rw [if_neg hv]
        exact h1.trans hc
      exact h4

/-- C4 data: a previously cached (and by `now = 1000` expired) entry. -/
def c4DocOld : RawDoc := { location := [] }

/-- A network that always answers HTTP 500 (Scenario E). -/
def c4Net : Nat → NetOutcome := fun _ => NetOutcome.response 500 none

/-- See `c4DocOld`. -/
def c4State : FetchState := { cache := some (c4DocOld, 0), calls := 3 }

/-- Witness for C4: upstream answers HTTP 500, the fetch fails with
`httpErr 500` and the cached entry is still there. -/
theorem fetch_failure_keeps_cache_witness :
    (fetch_cwa_weather cacheTtl 1000 c4Net c4State).1 = Except.error (FetchError.httpErr 500) ∧
    (fetch_cwa_weather cacheTtl 1000 c4Net c4State).2.cache = c4State.cache ∧
    fetchOnce (c4Net c4State.calls) = Except.error (FetchError.httpErr 500) :=
  ⟨by decide,
    (fetch_failure_keeps_cache cacheTtl 1000 c4Net c4State (FetchError.httpErr 500) (by decide)).1,
    (fetch_failure_keeps_cache cacheTtl 1000 c4Net c4State (FetchError.httpErr 500) (by decide)).2⟩

theorem fetchOnce_200 {d : RawDoc} :
    fetchOnce (NetOutcome.response 200 (some d)) = Except.ok d := by
  unfold fetchOnce
  dsimp only
  rw [if_neg (by decide : ¬ (400 ≤ 200 ∧ 200 < 600))]

/-- C5. With an empty cache, a first call at `t0` issues one network
request and stores the document with timestamp `t0`; a second call at
`t1` within the TTL window returns the cached document with the state
— in particular the request count — unchanged, so the two calls issued
exactly one network request; a third call at `t2` past the TTL issues a
fresh request and overwrites the cache with the new document and
timestamp. -/
theorem fetch_ttl_window (ttl t0 t1 t2 : Nat) (net : Nat → NetOutcome) (s0 : FetchState)
    (d d2 : RawDoc)
    (h0 : s0.cache = none)
    (hn1 : net s0.calls = NetOutcome.response 200 (some d))
    (h01 : t1 - t0 ≤ ttl)
    (hexp : ¬ (t2 - t0 ≤ ttl))
    (hn2 : net (s0.calls + 1) = NetOutcome.response 200 (some d2)) :
    fetch_cwa_weather ttl t0 net s0 =
      (Except.ok d, { cache := some (d, t0), calls := s0.calls + 1 }) ∧
    fetch_cwa_weather ttl t1 net { cache := some (d, t0), calls := s0.calls + 1 } =
      (Except.ok d, { cache := some (d, t0), calls := s0.calls + 1 }) ∧
    fetch_cwa_weather ttl t2 net { cache := some (d, t0), calls := s0.calls + 1 } =
      (Except.ok d2, { cache := some (d2, t2), calls := s0.calls + 2 }) := by
  refine ⟨?_, ?_, ?_⟩
  · unfold fetch_cwa_weather
    rw [h0]
    show fetchMiss t0 net s0 = _
    unfold fetchMiss
    rw [hn1, fetchOnce_200]
  · unfold fetch_cwa_weather
    dsimp only
    rw [if_pos h01]
  · unfold fetch_cwa_weather
    dsimp only
    rw [if_neg hexp]
    unfold fetchMiss
    dsimp only
    rw [hn2, fetchOnce_200]

/-- C5 data: the first and second documents the upstream serves. -/
def c5DocA : RawDoc := { location := [] }

/-- See `c5DocA`. -/
def c5DocB : RawDoc :=
  { location := [ { locationName := "Changhua County", weatherElement := [] } ] }

/-- A network serving `c5DocA` on the first request and `c5DocB`
afterwards, always with HTTP 200. -/
def c5Net : Nat → NetOutcome := fun n =>
  if n = 0 then NetOutcome.response 200 (some c5DocA) else NetOutcome.response 200 (some c5DocB)

/-- See `c5DocA`. -/
def c5State : FetchState := { cache := none, calls := 0 }

/-- Witness for C5: with `ttl = 900`, calls at `t = 0`, `500`, `1000`
issue requests 0 and 1 only: the middle call is served from the cache. -/
theorem fetch_ttl_window_witness :
    fetch_cwa_weather 900 0 c5Net c5State =
      (Except.ok c5DocA, { cache := some (c5DocA, 0), calls := 1 }) ∧
    fetch_cwa_weather 900 500 c5Net { cache := some (c5DocA, 0), calls := 1 } =
      (Except.ok c5DocA, { cache := some (c5DocA, 0), calls := 1 }) ∧
    fetch_cwa_weather 900 1000 c5Net { cache := some (c5DocA, 0), calls := 1 } =
      (Except.ok c5DocB, { cache := some (c5DocB, 1000), calls := 2 }) :=
  fetch_ttl_window 900 0 500 1000 c5Net c5State c5DocA c5DocB rfl rfl (by decide)
    (by decide) rfl
